import Mathlib

/-!
Shallow embedding of `src/flightdup2.py`, a single-file Streamlit dashboard.

The dataframe is modelled as a list of rows; each pandas/plotly/streamlit
call that the claims depend on is embedded as a pure Lean function:
* `load_data` models the cached loader (lines 11-27), with the filesystem
  abstracted as `Option (List Row)` (`none` = the dataset file is missing);
* `filtered_data` models the boolean-mask row selection (lines 57-61);
* `groupMeanPrice` models `.groupby(key)["Price"].mean().reset_index()`
  (pandas emits one row per distinct key, keys sorted, value = arithmetic
  mean of the group's `Price` column);
* `main` models the script body (lines 31-174) as a function from the
  filesystem and the three selectbox choices to the ordered trace of
  rendered outputs together with the list of storage operations performed.
-/

namespace Flight

/-- One row of the flight dataset.  `Date_of_Journey` is modelled as an
already-parsed (year, month, day) triple and `Dep_Time` as (hour, minute),
standing for the `pd.to_datetime` conversions at lines 85 and 148. -/
structure Row where
  Airline : String
  Source : String
  Destination : String
  Price : ℚ
  Date_of_Journey : Nat × Nat × Nat
  Total_Stops : String
  Dep_Time : Nat × Nat
  Duration : ℚ
  Route : String
deriving DecidableEq

/-- The derived `Month` column (line 86): the year-month period of
`Date_of_Journey`. -/
def monthOf (r : Row) : Nat × Nat := (r.Date_of_Journey.1, r.Date_of_Journey.2.1)

/-- The derived `Hour_of_Day` column (line 149): the hour of `Dep_Time`. -/
def hourOf (r : Row) : Nat := r.Dep_Time.1

/-- Pandas `Series.unique()`: the distinct values of a column in order of
first occurrence. -/
def uniq {α : Type} [DecidableEq α] : List α → List α
  | [] => []
  | x :: xs => x :: uniq (xs.filter (fun y => decide (y ≠ x)))
termination_by l => l.length
decreasing_by
  simp only [List.length_cons]
  exact Nat.lt_succ_of_le (List.length_filter_le _ xs)

/-- Insertion of an element into a list sorted by the boolean comparator
`le`; used to model the sorted group keys that pandas `groupby` emits. -/
def insertLe {α : Type} (le : α → α → Bool) (a : α) : List α → List α
  | [] => [a]
  | b :: bs => if le a b then a :: b :: bs else b :: insertLe le a bs

/-- Insertion sort by a boolean comparator. -/
def sortLe {α : Type} (le : α → α → Bool) : List α → List α
  | [] => []
  | a :: as => insertLe le a (sortLe le as)

/-- Arithmetic mean of a list of rationals (pandas `.mean()` on a group). -/
def listMean (l : List ℚ) : ℚ := l.sum / l.length

/-- Model of `df.groupby(key)["Price"].mean().reset_index()`: one output row
per distinct key occurring in `df` (keys sorted by `le`, as pandas sorts
group keys by default), paired with the arithmetic mean of the `Price`
values of exactly the rows having that key. -/
def groupMeanPrice {κ : Type} [DecidableEq κ] (key : Row → κ) (le : κ → κ → Bool)
    (df : List Row) : List (κ × ℚ) :=
  (sortLe le (uniq (df.map key))).map
    (fun k => (k, listMean ((df.filter (fun r => decide (key r = k))).map Row.Price)))

/-- Lexicographic comparator on the (Month, Destination) key. -/
def leMonthDest (a b : (Nat × Nat) × String) : Bool :=
  (a.1.1 < b.1.1 || (a.1.1 == b.1.1 && a.1.2 < b.1.2)) ||
    (a.1 == b.1 && decide (a.2 ≤ b.2))

/-- Comparator on `String` keys. -/
def leStr (a b : String) : Bool := decide (a ≤ b)

/-- Lexicographic comparator on (Airline, Total_Stops) keys. -/
def leStrPair (a b : String × String) : Bool :=
  decide (a.1 < b.1) || (a.1 == b.1 && decide (a.2 ≤ b.2))

/-- The boolean mask of lines 58-60, evaluated at one row. -/
def rowMask (airline_filter source_city destination_city : String) (r : Row) : Bool :=
  ((r.Airline == airline_filter) || (airline_filter == "All")) &&
  ((r.Source == source_city) || (source_city == "All")) &&
  ((r.Destination == destination_city) || (destination_city == "All"))

/-- The filtered table of lines 57-61: the single boolean-mask row
selection `df[mask]`. -/
def filtered_data (df : List Row) (airline_filter source_city destination_city : String) :
    List Row :=
  df.filter (rowMask airline_filter source_city destination_city)

/-- The kind of plotly figure produced by a `px.*` call. -/
inductive ChartKind where
  | box
  | line
  | bar
  | pie
  | scatter
deriving DecidableEq

/-- The data handed to a `px.*` call: either a raw dataframe or one of the
groupby-mean aggregates. -/
inductive PlotData where
  | raw (df : List Row)
  | meanByMonthDest (rows : List (((Nat × Nat) × String) × ℚ))
  | meanByStr (rows : List (String × ℚ))
  | meanByStrPair (rows : List ((String × String) × ℚ))
deriving DecidableEq

/-- A plotly figure as passed to `st.plotly_chart`: its kind, title and the
data it renders. -/
structure Chart where
  kind : ChartKind
  title : String
  data : PlotData
deriving DecidableEq

/-- One rendered output of the script, in render order. -/
inductive Output where
  | title (s : String)
  | write (s : String)
  | dataframe (df : List Row)
  | error (s : String)
  | warning (s : String)
  | sidebarTitle (s : String)
  | selectbox (label : String) (options : List String)
  | subheader (s : String)
  | chart (c : Chart)
  | sidebarMarkdown (s : String)
deriving DecidableEq

/-- A storage interaction with the host filesystem. -/
inductive StorageOp where
  | read (path : String)
  | write (path : String)
deriving DecidableEq

/-- The default dataset path (line 12). -/
def defaultFilepath : String := "data/Flight_datasets.xlsx"

/-- Model of `pd.read_excel` on the abstract filesystem: returns the rows
when the file exists, otherwise raises `FileNotFoundError`. -/
def read_excel (fs : Option (List Row)) : Except Unit (List Row) :=
  match fs with
  | some rows => Except.ok rows
  | none => Except.error ()

/-- Lines 11-27: `load_data` reads the dataset, catching
`FileNotFoundError` by emitting `st.error` and returning an empty
dataframe.  Returns the dataframe together with the outputs it rendered. -/
def load_data (fs : Option (List Row)) : List Row × List Output :=
  match read_excel fs with
  | Except.ok df => (df, [])
  | Except.error _ =>
      ([], [Output.error "Processed dataset not found. Please run the processing script first."])

/-- Figure of lines 74-78: box plot of Price by Airline over the full
dataframe. -/
def fig_price_dist (df : List Row) : Chart :=
  ⟨ChartKind.box, "Price Distribution by Airline", PlotData.raw df⟩

/-- Aggregation of line 89: mean Price by (Month, Destination) over the
full dataframe. -/
def monthly_price (df : List Row) : List (((Nat × Nat) × String) × ℚ) :=
  groupMeanPrice (fun r => (monthOf r, r.Destination)) leMonthDest df

/-- Figure of lines 92-100: line chart of the monthly price aggregate. -/
def fig_price_trends (df : List Row) : Chart :=
  ⟨ChartKind.line, "Price Trends by Destination", PlotData.meanByMonthDest (monthly_price df)⟩

/-- Aggregation of line 110: mean Price by Total_Stops over the filtered
table. -/
def avg_price_stops (fd : List Row) : List (String × ℚ) :=
  groupMeanPrice Row.Total_Stops leStr fd

/-- Figure of lines 111-115: bar chart of the average price by stops. -/
def fig_avg_price (fd : List Row) : Chart :=
  ⟨ChartKind.bar, "Average Price by Total Stops", PlotData.meanByStr (avg_price_stops fd)⟩

/-- Figure of lines 120-122: pie chart of Source over the filtered table. -/
def fig_source_dist (fd : List Row) : Chart :=
  ⟨ChartKind.pie, "Flight Distribution by Source City", PlotData.raw fd⟩

/-- Aggregation of line 127: mean Price by Source over the full dataframe. -/
def price_by_source (df : List Row) : List (String × ℚ) :=
  groupMeanPrice Row.Source leStr df

/-- Figure of lines 128-132: bar chart of the average price by source. -/
def fig_price_by_source (df : List Row) : Chart :=
  ⟨ChartKind.bar, "Average Price by Source City", PlotData.meanByStr (price_by_source df)⟩

/-- Aggregation of line 137: mean Price by (Airline, Total_Stops) over the
full dataframe. -/
def price_by_airline_stops (df : List Row) : List ((String × String) × ℚ) :=
  groupMeanPrice (fun r => (r.Airline, r.Total_Stops)) leStrPair df

/-- Figure of lines 138-143: grouped bar chart by airline and stops. -/
def fig_price_airline_stops (df : List Row) : Chart :=
  ⟨ChartKind.bar, "Price by Airline and Total Stops",
    PlotData.meanByStrPair (price_by_airline_stops df)⟩

/-- Figure of lines 150-153: box plot of Price by Hour_of_Day over the full
dataframe. -/
def fig_price_time (df : List Row) : Chart :=
  ⟨ChartKind.box, "Price Distribution by Time of Day", PlotData.raw df⟩

/-- Figure of lines 158-160: pie chart of Route over the full dataframe. -/
def fig_route_dist (df : List Row) : Chart :=
  ⟨ChartKind.pie, "Flight Distribution by Route", PlotData.raw df⟩

/-- Figure of lines 165-170: scatter of Duration vs Price over the filtered
table. -/
def fig_duration_price (fd : List Row) : Chart :=
  ⟨ChartKind.scatter, "Duration vs Price by Airline", PlotData.raw fd⟩

/-- Lines 31-174: the script body.  Takes the abstract filesystem and the
three selectbox choices; returns the ordered trace of rendered outputs and
the list of storage operations performed. -/
def main (fs : Option (List Row)) (airline_filter source_city destination_city : String) :
    List Output × List StorageOp :=
  let header := [Output.title "Flight Dashboard",
    Output.write "This dashboard displays the flight data insights and allows stakeholders to filter and search the records."]
  let loaded := load_data fs
  let df := loaded.1
  if df.isEmpty then
    (header ++ loaded.2 ++
      [Output.warning "No data to display. Please ensure the dataset is processed and available."],
      [StorageOp.read defaultFilepath])
  else
    let fd := filtered_data df airline_filter source_city destination_city
    (header ++ loaded.2 ++
      [Output.write "Dataset Preview:",
       Output.dataframe df,
       Output.sidebarTitle "Flight Data Insights",
       Output.selectbox "Select Airline" ("All" :: uniq (df.map Row.Airline)),
       Output.selectbox "Select Source City" ("All" :: uniq (df.map Row.Source)),
       Output.selectbox "Select Destination City" ("All" :: uniq (df.map Row.Destination)),
       Output.subheader ("Flights by Airline: " ++ airline_filter ++ ", from " ++
         source_city ++ " to " ++ destination_city),
       Output.dataframe fd,
       Output.subheader "Price Distribution by Airline",
       Output.chart (fig_price_dist df),
       Output.subheader "Price Trends by Destination",
       Output.chart (fig_price_trends df),
       Output.subheader "Average Price by Total Stops",
       Output.chart (fig_avg_price fd),
       Output.subheader "Distribution of Flights by Source",
       Output.chart (fig_source_dist fd),
       Output.subheader "Price by Source City",
       Output.chart (fig_price_by_source df),
       Output.subheader "Price by Airline and Total Stops",
       Output.chart (fig_price_airline_stops df),
       Output.subheader "Price Distribution by Time of Day",
       Output.chart (fig_price_time df),
       Output.subheader "Flights by Route",
       Output.chart (fig_route_dist df),
       Output.subheader "Duration vs Price",
       Output.chart (fig_duration_price fd),
       Output.sidebarMarkdown "This dashboard provides insights into flight data."],
      [StorageOp.read defaultFilepath])

/-- The plotly figures displayed in a trace, in order. -/
def chartsOf (t : List Output) : List Chart :=
  t.filterMap (fun o => match o with | Output.chart c => some c | _ => none)

/-- The dataframe tables displayed in a trace, in order. -/
def tablesOf (t : List Output) : List (List Row) :=
  t.filterMap (fun o => match o with | Output.dataframe d => some d | _ => none)

/-- The selectbox widgets rendered in a trace, in order. -/
def selectboxesOf (t : List Output) : List (String × List String) :=
  t.filterMap (fun o => match o with | Output.selectbox l opts => some (l, opts) | _ => none)

/-! ### Helper lemmas -/

theorem uniq_mem {α : Type} [DecidableEq α] (l : List α) (a : α) :
    a ∈ uniq l ↔ a ∈ l := by
  induction l using uniq.induct with
  | case1 => simp [uniq]
  | case2 x xs ih =>
      rw [uniq]
      by_cases hax : a = x
      · subst hax; simp
      · simp only [List.mem_cons, ih, List.mem_filter]
        constructor
        · rintro (rfl | ⟨h, _⟩)
          · exact Or.inl rfl
          · exact Or.inr h
        · rintro (rfl | h)
          · exact Or.inl rfl
          · exact Or.inr ⟨h, by simp [hax]⟩

theorem uniq_nodup {α : Type} [DecidableEq α] (l : List α) : (uniq l).Nodup := by
  induction l using uniq.induct with
  | case1 => simp [uniq]
  | case2 x xs ih =>
      rw [uniq]
      refine List.nodup_cons.mpr ⟨?_, ih⟩
      intro hx
      rw [uniq_mem, List.mem_filter] at hx
      simp at hx

theorem uniq_sublist {α : Type} [DecidableEq α] (l : List α) : List.Sublist (uniq l) l := by
  induction l using uniq.induct with
  | case1 => simp [uniq]
  | case2 x xs ih =>
      rw [uniq]
      exact List.Sublist.cons₂ x (ih.trans (List.filter_sublist xs))

theorem insertLe_perm {α : Type} (le : α → α → Bool) (a : α) (l : List α) :
    List.Perm (insertLe le a l) (a :: l) := by
  induction l with
  | nil => simp [insertLe]
  | cons b bs ih =>
      rw [insertLe]
      split
      · exact List.Perm.refl _
      · exact (List.Perm.cons b ih).trans (List.Perm.swap a b bs)

theorem sortLe_perm {α : Type} (le : α → α → Bool) (l : List α) :
    List.Perm (sortLe le l) l := by
  induction l with
  | nil => simp [sortLe]
  | cons a as ih =>
      rw [sortLe]
      exact (insertLe_perm le a (sortLe le as)).trans (List.Perm.cons a ih)

theorem indexOf_filter_mono {α : Type} [DecidableEq α] (p : α → Bool) (xs : List α) (u v : α)
    (hu : u ∈ xs.filter p) (hv : v ∈ xs.filter p)
    (h : (xs.filter p).indexOf u < (xs.filter p).indexOf v) :
    xs.indexOf u < xs.indexOf v := by
  induction xs with
  | nil => simp at hu
  | cons w ws ih =>
      by_cases hpw : p w
      · rw [List.filter_cons_of_pos hpw] at hu hv h
        by_cases huw : u = w
        · subst huw
          have hvu : v ≠ u := by
            intro hvu
            subst hvu
            simp at h
          rw [List.indexOf_cons_self, List.indexOf_cons_ne ws (fun he => hvu he.symm)]
          exact Nat.succ_pos _
        · have hvw : v ≠ w := by
            intro hvw
            subst hvw
            rw [List.indexOf_cons_self] at h
            exact Nat.not_lt_zero _ h
          rw [List.indexOf_cons_ne _ (fun he => huw he.symm),
            List.indexOf_cons_ne _ (fun he => hvw he.symm)] at h
          have hu' : u ∈ ws.filter p := by
            rcases List.mem_cons.mp hu with he | hm
            · exact absurd he huw
            · exact hm
          have hv' : v ∈ ws.filter p := by
            rcases List.mem_cons.mp hv with he | hm
            · exact absurd he hvw
            · exact hm
          rw [List.indexOf_cons_ne ws (fun he => huw he.symm),
            List.indexOf_cons_ne ws (fun he => hvw he.symm)]
          exact Nat.succ_lt_succ (ih hu' hv' (Nat.lt_of_succ_lt_succ h))
      · rw [List.filter_cons_of_neg hpw] at hu hv h
        have huw : u ≠ w := fun he => hpw (he ▸ (List.mem_filter.mp hu).2)
        have hvw : v ≠ w := fun he => hpw (he ▸ (List.mem_filter.mp hv).2)
        rw [List.indexOf_cons_ne ws (fun he => huw he.symm),
          List.indexOf_cons_ne ws (fun he => hvw he.symm)]
        exact Nat.succ_lt_succ (ih hu hv h)

theorem uniq_pairwise_indexOf {α : Type} [DecidableEq α] (col : List α) :
    List.Pairwise (fun x y => col.indexOf x < col.indexOf y) (uniq col) := by
  induction col using uniq.induct with
  | case1 => simp [uniq]
  | case2 x xs ih =>
      rw [uniq, List.pairwise_cons]
      constructor
      · intro y hy
        have hy' : y ∈ xs.filter (fun z => decide (z ≠ x)) := (uniq_mem _ y).mp hy
        have hyx : y ≠ x := by
          have := (List.mem_filter.mp hy').2
          simpa using this
        rw [List.indexOf_cons_self, List.indexOf_cons_ne xs (fun he => hyx he.symm)]
        exact Nat.succ_pos _
      · refine ih.imp_of_mem ?_
        intro u v hu hv huv
        have hu' := (uniq_mem _ u).mp hu
        have hv' := (uniq_mem _ v).mp hv
        have hux : u ≠ x := by
          have := (List.mem_filter.mp hu').2
          simpa using this
        have hvx : v ≠ x := by
          have := (List.mem_filter.mp hv').2
          simpa using this
        have hmono := indexOf_filter_mono _ xs u v hu' hv' huv
        rw [List.indexOf_cons_ne xs (fun he => hux he.symm),
          List.indexOf_cons_ne xs (fun he => hvx he.symm)]
        exact Nat.succ_lt_succ hmono

theorem groupMeanPrice_keys {κ : Type} [DecidableEq κ] (key : Row → κ) (le : κ → κ → Bool)
    (df : List Row) : (groupMeanPrice key le df).map Prod.fst = sortLe le (uniq (df.map key)) := by
  rw [groupMeanPrice, List.map_map]
  exact List.map_id _

theorem groupMeanPrice_keys_nodup {κ : Type} [DecidableEq κ] (key : Row → κ)
    (le : κ → κ → Bool) (df : List Row) :
    ((groupMeanPrice key le df).map Prod.fst).Nodup := by
  rw [groupMeanPrice_keys]
  exact ((sortLe_perm le _).nodup_iff).mpr (uniq_nodup _)

theorem groupMeanPrice_mem_keys {κ : Type} [DecidableEq κ] (key : Row → κ)
    (le : κ → κ → Bool) (df : List Row) (k : κ) :
    k ∈ (groupMeanPrice key le df).map Prod.fst ↔ ∃ r ∈ df, key r = k := by
  rw [groupMeanPrice_keys, (sortLe_perm le _).mem_iff, uniq_mem, List.mem_map]

theorem groupMeanPrice_val {κ : Type} [DecidableEq κ] (key : Row → κ) (le : κ → κ → Bool)
    (df : List Row) (p : κ × ℚ) (hp : p ∈ groupMeanPrice key le df) :
    p.2 = listMean ((df.filter (fun r => decide (key r = p.1))).map Row.Price) := by
  rw [groupMeanPrice, List.mem_map] at hp
  obtain ⟨k, _, rfl⟩ := hp
  rfl

/-- A single groupby-mean output satisfies the three properties claim C2
asks of it, phrased against the input table `input` and key map `key`. -/
def GroupMeanSpec {κ : Type} [DecidableEq κ] (key : Row → κ) (input : List Row)
    (out : List (κ × ℚ)) : Prop :=
  (out.map Prod.fst).Nodup ∧
  (∀ k : κ, k ∈ out.map Prod.fst ↔ ∃ r ∈ input, key r = k) ∧
  (∀ p ∈ out,
    p.2 = ((input.filter (fun r => decide (key r = p.1))).map Row.Price).sum /
      ((input.filter (fun r => decide (key r = p.1))).map Row.Price).length)

theorem groupMeanPrice_spec {κ : Type} [DecidableEq κ] (key : Row → κ) (le : κ → κ → Bool)
    (df : List Row) : GroupMeanSpec key df (groupMeanPrice key le df) :=
  ⟨groupMeanPrice_keys_nodup key le df,
   fun k => groupMeanPrice_mem_keys key le df k,
   fun p hp => groupMeanPrice_val key le df p hp⟩

theorem chartsOf_main_some (df : List Row) (hdf : df ≠ []) (a s d : String) :
    chartsOf (main (some df) a s d).1 =
      [fig_price_dist df, fig_price_trends df,
       fig_avg_price (filtered_data df a s d), fig_source_dist (filtered_data df a s d),
       fig_price_by_source df, fig_price_airline_stops df, fig_price_time df,
       fig_route_dist df, fig_duration_price (filtered_data df a s d)] := by
  simp [main, load_data, read_excel, chartsOf, List.isEmpty_eq_false.mpr hdf]

theorem tablesOf_main_some (df : List Row) (hdf : df ≠ []) (a s d : String) :
    tablesOf (main (some df) a s d).1 = [df, filtered_data df a s d] := by
  simp [main, load_data, read_excel, tablesOf, List.isEmpty_eq_false.mpr hdf]

theorem selectboxesOf_main_some (df : List Row) (hdf : df ≠ []) (a s d : String) :
    selectboxesOf (main (some df) a s d).1 =
      [("Select Airline", "All" :: uniq (df.map Row.Airline)),
       ("Select Source City", "All" :: uniq (df.map Row.Source)),
       ("Select Destination City", "All" :: uniq (df.map Row.Destination))] := by
  simp [main, load_data, read_excel, selectboxesOf, List.isEmpty_eq_false.mpr hdf]

/-- A concrete row used to instantiate the universally quantified claims. -/
def sampleRow : Row :=
  ⟨"IndiGo", "Banglore", "New Delhi", 3897, (2019, 3, 24), "non-stop", (22, 20), 170, "BLR to DEL"⟩

/-! ### Claims -/

/-- C1: for every dataframe and every choice of the three selector values,
`filtered_data` consists of exactly those rows of `df` for which (the
airline selection is "All" or the row's Airline equals it) and (the source
selection is "All" or the row's Source equals it) and (the destination
selection is "All" or the row's Destination equals it): it is a sublist of
`df` (rows kept in original order), each row of `df` is kept with its full
multiplicity exactly when it satisfies the predicate, and membership is
characterised by the predicate. -/
theorem C1_filtered_data_exact (df : List Row) (a s d : String) :
    List.Sublist (filtered_data df a s d) df ∧
    (∀ r : Row, r ∈ filtered_data df a s d ↔ r ∈ df ∧
      ((a = "All" ∨ r.Airline = a) ∧ (s = "All" ∨ r.Source = s) ∧
        (d = "All" ∨ r.Destination = d))) ∧
    (∀ r : Row, (filtered_data df a s d).count r =
      if (a = "All" ∨ r.Airline = a) ∧ (s = "All" ∨ r.Source = s) ∧
          (d = "All" ∨ r.Destination = d) then df.count r else 0) := by
  refine ⟨List.filter_sublist df, ?_, ?_⟩
  · intro r
    rw [filtered_data, List.mem_filter, rowMask]
    simp only [Bool.and_eq_true, Bool.or_eq_true, beq_iff_eq]
    tauto
  · intro r
    rw [filtered_data]
    by_cases h : (a = "All" ∨ r.Airline = a) ∧ (s = "All" ∨ r.Source = s) ∧
        (d = "All" ∨ r.Destination = d)
    · rw [if_pos h]
      refine List.count_filter ?_
      rw [rowMask]
      simp only [Bool.and_eq_true, Bool.or_eq_true, beq_iff_eq]
      tauto
    · rw [if_neg h]
      rw [List.count_eq_zero]
      intro hmem
      rw [List.mem_filter, rowMask] at hmem
      refine h ?_
      obtain ⟨_, hm⟩ := hmem
      simp only [Bool.and_eq_true, Bool.or_eq_true, beq_iff_eq] at hm
      tauto

/-- C10: selecting "All" in all three filter widgets makes the filter the
identity: `filtered_data` equals the full dataframe row for row. -/
theorem C10_filter_all_identity (df : List Row) :
    filtered_data df "All" "All" "All" = df := by
  rw [filtered_data]
  refine List.filter_eq_self.mpr ?_
  intro r _
  simp [rowMask]

/-- C2: each of the three groupby aggregations produces exactly one output
row per distinct group key occurring in its input, with Price equal to the
arithmetic mean of the Price values of exactly the input rows having that
key: `monthly_price` groups the full dataframe by (Month, Destination),
`avg_price_stops` groups the filtered table by Total_Stops, and
`price_by_source` groups the full dataframe by Source. -/
theorem C2_groupby_means (df : List Row) (a s d : String) :
    GroupMeanSpec (fun r => (monthOf r, r.Destination)) df (monthly_price df) ∧
    GroupMeanSpec Row.Total_Stops (filtered_data df a s d)
      (avg_price_stops (filtered_data df a s d)) ∧
    GroupMeanSpec Row.Source df (price_by_source df) :=
  ⟨groupMeanPrice_spec _ _ df,
   groupMeanPrice_spec _ _ (filtered_data df a s d),
   groupMeanPrice_spec _ _ df⟩

/-- C3 (counterexample): on a concrete non-empty dataset the script does
not display twelve chart views: the run's trace contains nine
`st.plotly_chart` outputs, not a dozen. -/
theorem C3_counterexample :
    ([sampleRow] : List Row) ≠ [] ∧
    (chartsOf (main (some [sampleRow]) "All" "All" "All").1).length ≠ 12 := by
  constructor
  · simp
  · rw [chartsOf_main_some [sampleRow] (by simp) "All" "All" "All"]
    simp

/-- C3 (amended): for every non-empty loaded dataset, the script displays
nine chart views. -/
theorem C3_nine_charts (df : List Row) (hdf : df ≠ []) (a s d : String) :
    (chartsOf (main (some df) a s d).1).length = 9 := by
  rw [chartsOf_main_some df hdf a s d]
  rfl

theorem C3_nine_charts_witness :
    (chartsOf (main (some [sampleRow]) "All" "All" "All").1).length = 9 :=
  C3_nine_charts [sampleRow] (by simp) "All" "All" "All"

/-- C4: for every non-empty loaded dataset, the displayed chart views
include at least one of each of the five kinds: box plot, line trend, bar
chart, pie chart, and scatter plot. -/
theorem C4_chart_kinds (df : List Row) (hdf : df ≠ []) (a s d : String) :
    ChartKind.box ∈ (chartsOf (main (some df) a s d).1).map Chart.kind ∧
    ChartKind.line ∈ (chartsOf (main (some df) a s d).1).map Chart.kind ∧
    ChartKind.bar ∈ (chartsOf (main (some df) a s d).1).map Chart.kind ∧
    ChartKind.pie ∈ (chartsOf (main (some df) a s d).1).map Chart.kind ∧
    ChartKind.scatter ∈ (chartsOf (main (some df) a s d).1).map Chart.kind := by
  rw [chartsOf_main_some df hdf a s d]
  refine ⟨?_, ?_, ?_, ?_, ?_⟩ <;>
    simp [fig_price_dist, fig_price_trends, fig_avg_price, fig_source_dist,
      fig_price_by_source, fig_price_airline_stops, fig_price_time, fig_route_dist,
      fig_duration_price]

theorem C4_chart_kinds_witness :
    ChartKind.box ∈ (chartsOf (main (some [sampleRow]) "All" "All" "All").1).map Chart.kind ∧
    ChartKind.line ∈ (chartsOf (main (some [sampleRow]) "All" "All" "All").1).map Chart.kind ∧
    ChartKind.bar ∈ (chartsOf (main (some [sampleRow]) "All" "All" "All").1).map Chart.kind ∧
    ChartKind.pie ∈ (chartsOf (main (some [sampleRow]) "All" "All" "All").1).map Chart.kind ∧
    ChartKind.scatter ∈
      (chartsOf (main (some [sampleRow]) "All" "All" "All").1).map Chart.kind :=
  C4_chart_kinds [sampleRow] (by simp) "All" "All" "All"

/-- C5: for every non-empty loaded dataset, exactly three filter widgets
are rendered — Select Airline, Select Source City, Select Destination
City — and each widget's option list is "All" followed by the distinct
values of the corresponding column in order of first occurrence: the tail
of each option list has no duplicates, contains exactly the values of the
column, and is ordered by increasing index of first occurrence. -/
theorem C5_filter_widgets (df : List Row) (hdf : df ≠ []) (a s d : String) :
    selectboxesOf (main (some df) a s d).1 =
      [("Select Airline", "All" :: uniq (df.map Row.Airline)),
       ("Select Source City", "All" :: uniq (df.map Row.Source)),
       ("Select Destination City", "All" :: uniq (df.map Row.Destination))] ∧
    ∀ col ∈ [df.map Row.Airline, df.map Row.Source, df.map Row.Destination],
      (uniq col).Nodup ∧ (∀ x, x ∈ uniq col ↔ x ∈ col) ∧
        List.Pairwise (fun x y => col.indexOf x < col.indexOf y) (uniq col) := by
  refine ⟨selectboxesOf_main_some df hdf a s d, ?_⟩
  intro col _
  exact ⟨uniq_nodup col, fun x => uniq_mem col x, uniq_pairwise_indexOf col⟩

theorem C5_filter_widgets_witness :
    selectboxesOf (main (some [sampleRow]) "All" "All" "All").1 =
      [("Select Airline", "All" :: uniq ([sampleRow].map Row.Airline)),
       ("Select Source City", "All" :: uniq ([sampleRow].map Row.Source)),
       ("Select Destination City", "All" :: uniq ([sampleRow].map Row.Destination))] ∧
    ∀ col ∈ [[sampleRow].map Row.Airline, [sampleRow].map Row.Source,
        [sampleRow].map Row.Destination],
      (uniq col).Nodup ∧ (∀ x, x ∈ uniq col ↔ x ∈ col) ∧
        List.Pairwise (fun x y => col.indexOf x < col.indexOf y) (uniq col) :=
  C5_filter_widgets [sampleRow] (by simp) "All" "All" "All"

/-- C6: re-executing the script top-to-bottom is deterministic: two runs
with equal loaded dataset contents and equal widget selections render the
identical sequence of outputs (and perform the identical storage
operations). -/
theorem C6_deterministic (fs₁ fs₂ : Option (List Row)) (a₁ s₁ d₁ a₂ s₂ d₂ : String)
    (hfs : fs₁ = fs₂) (ha : a₁ = a₂) (hs : s₁ = s₂) (hd : d₁ = d₂) :
    main fs₁ a₁ s₁ d₁ = main fs₂ a₂ s₂ d₂ := by
  subst hfs
  subst ha
  subst hs
  subst hd
  rfl

theorem C6_deterministic_witness :
    main (some [sampleRow]) "All" "All" "All" = main (some [sampleRow]) "All" "All" "All" :=
  C6_deterministic (some [sampleRow]) (some [sampleRow]) "All" "All" "All" "All" "All" "All"
    rfl rfl rfl rfl

/-- C7: the program's only storage interaction is reading the dataset file
in `load_data`: every run performs exactly one storage operation, the read
of the default dataset path, and never a write to any path. -/
theorem C7_no_storage_writes (fs : Option (List Row)) (a s d : String) :
    (main fs a s d).2 = [StorageOp.read defaultFilepath] ∧
    ∀ p : String, StorageOp.write p ∉ (main fs a s d).2 := by
  have h2 : (main fs a s d).2 = [StorageOp.read defaultFilepath] := by
    simp only [main]
    split <;> rfl
  refine ⟨h2, ?_⟩
  intro p hp
  rw [h2] at hp
  simp at hp

/-- C8: when the dataset file is missing, `read_excel` raises
`FileNotFoundError`, `load_data` catches it and returns an empty dataframe
with an error message instead of propagating the exception, and `main`
then warns and returns early: the trace contains the warning and no
dataset preview, no filter widget and no chart. -/
theorem C8_missing_file (a s d : String) :
    read_excel none = Except.error () ∧
    (load_data none).1 = [] ∧
    Output.warning
        "No data to display. Please ensure the dataset is processed and available." ∈
      (main none a s d).1 ∧
    ∀ o ∈ (main none a s d).1,
      (∀ t : List Row, o ≠ Output.dataframe t) ∧
      (∀ l opts, o ≠ Output.selectbox l opts) ∧
      (∀ c : Chart, o ≠ Output.chart c) := by
  refine ⟨rfl, rfl, ?_, ?_⟩
  · simp [main, load_data, read_excel]
  · intro o ho
    simp [main, load_data, read_excel] at ho
    rcases ho with rfl | rfl | rfl | rfl <;> simp

/-- C9: the six chart views built from the full dataframe do not depend on
the selector values: for any two runs on the same dataset the figures at
the six full-dataframe positions and the dataset-preview table coincide,
and only the filtered-data table and the three filtered-data views
(average price by total stops, source-city pie, duration-vs-price scatter)
may differ between the runs. -/
theorem C9_full_charts_independent (df : List Row) (hdf : df ≠ [])
    (a₁ s₁ d₁ a₂ s₂ d₂ : String) :
    ∃ x₁ y₁ z₁ t₁ x₂ y₂ z₂ t₂,
      chartsOf (main (some df) a₁ s₁ d₁).1 =
        [fig_price_dist df, fig_price_trends df, x₁, y₁, fig_price_by_source df,
         fig_price_airline_stops df, fig_price_time df, fig_route_dist df, z₁] ∧
      tablesOf (main (some df) a₁ s₁ d₁).1 = [df, t₁] ∧
      chartsOf (main (some df) a₂ s₂ d₂).1 =
        [fig_price_dist df, fig_price_trends df, x₂, y₂, fig_price_by_source df,
         fig_price_airline_stops df, fig_price_time df, fig_route_dist df, z₂] ∧
      tablesOf (main (some df) a₂ s₂ d₂).1 = [df, t₂] :=
  ⟨fig_avg_price (filtered_data df a₁ s₁ d₁), fig_source_dist (filtered_data df a₁ s₁ d₁),
   fig_duration_price (filtered_data df a₁ s₁ d₁), filtered_data df a₁ s₁ d₁,
   fig_avg_price (filtered_data df a₂ s₂ d₂), fig_source_dist (filtered_data df a₂ s₂ d₂),
   fig_duration_price (filtered_data df a₂ s₂ d₂), filtered_data df a₂ s₂ d₂,
   chartsOf_main_some df hdf a₁ s₁ d₁, tablesOf_main_some df hdf a₁ s₁ d₁,
   chartsOf_main_some df hdf a₂ s₂ d₂, tablesOf_main_some df hdf a₂ s₂ d₂⟩

theorem C9_full_charts_independent_witness :
    ∃ x₁ y₁ z₁ t₁ x₂ y₂ z₂ t₂,
      chartsOf (main (some [sampleRow]) "All" "All" "All").1 =
        [fig_price_dist [sampleRow], fig_price_trends [sampleRow], x₁, y₁,
         fig_price_by_source [sampleRow], fig_price_airline_stops [sampleRow],
         fig_price_time [sampleRow], fig_route_dist [sampleRow], z₁] ∧
      tablesOf (main (some [sampleRow]) "All" "All" "All").1 = [[sampleRow], t₁] ∧
      chartsOf (main (some [sampleRow]) "IndiGo" "Banglore" "New Delhi").1 =
        [fig_price_dist [sampleRow], fig_price_trends [sampleRow], x₂, y₂,
         fig_price_by_source [sampleRow], fig_price_airline_stops [sampleRow],
         fig_price_time [sampleRow], fig_route_dist [sampleRow], z₂] ∧
      tablesOf (main (some [sampleRow]) "IndiGo" "Banglore" "New Delhi").1 =
        [[sampleRow], t₂] :=
  C9_full_charts_independent [sampleRow] (by simp) "All" "All" "All"
    "IndiGo" "Banglore" "New Delhi"

end Flight
